import Mathlib

/-!
Verification development for the NanoGen backend's money/credit ledger and
job-lifecycle core.  The definitions below are a shallow embedding of the
Python sources under `backend/app`: SQLAlchemy rows become Lean structures,
the database session becomes an explicit `Db` state threaded through each
service call, machine integers become `Int`/`Nat`, and Python exceptions
become `Except` errors.  A service call models one session: every mutation
of the committed state appears in the returned `Db`; a raised exception
returns only the error (SQLAlchemy rolls back the uncommitted session).
-/

namespace NanoGen

/-! ## Data model (backend/app/models) -/

/-- `TransactionType` from `models/transaction.py`. -/
inductive TransactionType where
  | topup
  | generation
  | refund
  | referral
  | withdrawal
  | bonus
deriving DecidableEq, Repr

/-- `Transaction` row from `models/transaction.py` (ledger entry). -/
structure Tx where
  user_id : Nat
  type : TransactionType
  amount : Int
  reference_id : Option Nat
deriving DecidableEq, Repr

/-- `GenerationStatus` from `models/generation.py`.  The Python enum has
exactly these five members; there is no `CANCELLED` member. -/
inductive GenerationStatus where
  | pending
  | processing
  | completed
  | failed
  | refunded
deriving DecidableEq, Repr

/-- Attribute lookup on the Python `GenerationStatus` enum class:
`GenerationStatus.X` succeeds exactly for the five declared members and
raises `AttributeError` (modelled as `none`) for any other name. -/
def GenerationStatus.attr : String → Option GenerationStatus
  | "PENDING" => some .pending
  | "PROCESSING" => some .processing
  | "COMPLETED" => some .completed
  | "FAILED" => some .failed
  | "REFUNDED" => some .refunded
  | _ => none

/-- `Generation` row from `models/generation.py`. -/
structure Generation where
  id : Nat
  user_id : Nat
  model_id : String
  model_name : String
  generation_type : String
  prompt : String
  credits_charged : Int
  status : GenerationStatus
  idempotency_key : Option String
  aiml_task_id : Option String
  result_url : Option String
  error_message : Option String
  created_at : Nat
  started_at : Option Nat
  completed_at : Option Nat
deriving DecidableEq, Repr

/-- `User` row from `models/user.py`. -/
structure User where
  id : Nat
  username : Option String
  credits : Int
  referrer_id : Option Nat
  referral_code : Option String
  referral_total_earned : Int
  referral_balance : Int
  referral_withdrawn : Int
  referrals_count : Int
  referrals_active : Int
  saved_card_number : Option String
  saved_card_type : Option String
  total_spent_uzs : Int
  total_generations : Int
  total_spent_credits : Int
  is_banned : Bool
  first_payment_at : Option Nat
  last_active_at : Nat
deriving DecidableEq, Repr

/-- Column default for `User.credits` in `models/user.py`
(`credits = Column(Integer, default=10)  # Starting bonus`). -/
def user_credits_column_default : Int := 10

/-- A `User` row populated with the column defaults of `models/user.py`. -/
def mkUser (id : Nat) : User :=
  { id := id
    username := none
    credits := user_credits_column_default
    referrer_id := none
    referral_code := none
    referral_total_earned := 0
    referral_balance := 0
    referral_withdrawn := 0
    referrals_count := 0
    referrals_active := 0
    saved_card_number := none
    saved_card_type := none
    total_spent_uzs := 0
    total_generations := 0
    total_spent_credits := 0
    is_banned := false
    first_payment_at := none
    last_active_at := 0 }

/-- `PaymentStatus` from `models/payment.py`. -/
inductive PaymentStatus where
  | pending
  | approved
  | rejected
deriving DecidableEq, Repr

/-- `Payment` row from `models/payment.py`. -/
structure Payment where
  id : Nat
  user_id : Nat
  credits : Int
  amount_uzs : Int
  status : PaymentStatus
  admin_id : Option Nat
  referrer_id : Option Nat
  referral_commission : Int
  idempotency_key : Option String
  processed_at : Option Nat
deriving DecidableEq, Repr

/-- `WithdrawalStatus` from `models/withdrawal.py`. -/
inductive WithdrawalStatus where
  | pending
  | frozen
  | approved
  | rejected
deriving DecidableEq, Repr

/-- `CardType` from `models/withdrawal.py`. -/
inductive CardType where
  | uzcard
  | humo
deriving DecidableEq, Repr

/-- `Withdrawal` row from `models/withdrawal.py`. -/
structure Withdrawal where
  id : Nat
  user_id : Nat
  amount_uzs : Int
  card_number : String
  card_type : CardType
  status : WithdrawalStatus
  admin_id : Option Nat
  idempotency_key : Option String
  processed_at : Option Nat
deriving DecidableEq, Repr

/-- `Referral` edge row from `models/referral.py`. -/
structure Referral where
  referrer_id : Nat
  referred_id : Nat
  total_earned : Int
deriving DecidableEq, Repr

/-- The database state visible to the services: one table per model plus
a clock (`datetime.utcnow()` as seconds) and autoincrement counters. -/
structure Db where
  now : Nat
  users : List User
  generations : List Generation
  transactions : List Tx
  payments : List Payment
  withdrawals : List Withdrawal
  referrals : List Referral
  next_generation_id : Nat
  next_withdrawal_id : Nat
deriving DecidableEq, Repr

/-! ## Shared table helpers -/

/-- `db.get(User, uid)`. -/
def findUser (db : Db) (uid : Nat) : Option User :=
  db.users.find? (fun u => u.id == uid)

/-- `db.get(Generation, gid)`. -/
def findGeneration (db : Db) (gid : Nat) : Option Generation :=
  db.generations.find? (fun g => g.id == gid)

/-- `db.get(Payment, pid)`. -/
def findPayment (db : Db) (pid : Nat) : Option Payment :=
  db.payments.find? (fun p => p.id == pid)

/-- `db.get(Withdrawal, wid)`. -/
def findWithdrawal (db : Db) (wid : Nat) : Option Withdrawal :=
  db.withdrawals.find? (fun w => w.id == wid)

/-- Mutate the user row with the given primary key. -/
def updateUser (db : Db) (uid : Nat) (f : User → User) : Db :=
  { db with users := db.users.map (fun u => if u.id == uid then f u else u) }

/-- Mutate the generation row with the given primary key. -/
def updateGeneration (db : Db) (gid : Nat) (f : Generation → Generation) : Db :=
  { db with generations := db.generations.map (fun g => if g.id == gid then f g else g) }

/-- Mutate the payment row with the given primary key. -/
def updatePayment (db : Db) (pid : Nat) (f : Payment → Payment) : Db :=
  { db with payments := db.payments.map (fun p => if p.id == pid then f p else p) }

/-- Mutate the withdrawal row with the given primary key. -/
def updateWithdrawal (db : Db) (wid : Nat) (f : Withdrawal → Withdrawal) : Db :=
  { db with withdrawals := db.withdrawals.map (fun w => if w.id == wid then f w else w) }

/-- Sum of an account's ledger (Transaction) amounts. -/
def txSum (txs : List Tx) (uid : Nat) : Int :=
  ((txs.filter (fun t => t.user_id == uid)).map (fun t => t.amount)).sum

/-- Sum of the ledger amounts that reference a given generation job. -/
def jobTxSum (txs : List Tx) (gid : Nat) : Int :=
  ((txs.filter (fun t => t.reference_id == some gid)).map (fun t => t.amount)).sum

/-- Number of REFUND ledger entries referencing a given generation job. -/
def refundCount (txs : List Tx) (gid : Nat) : Nat :=
  (txs.filter (fun t => t.reference_id == some gid && t.type == TransactionType.refund)).length

/-- Credits of an account, read through `findUser`. -/
def userCredits (db : Db) (uid : Nat) : Option Int :=
  (findUser db uid).map (fun u => u.credits)

/-- Referral balance of an account, read through `findUser`. -/
def userReferralBalance (db : Db) (uid : Nat) : Option Int :=
  (findUser db uid).map (fun u => u.referral_balance)

/-- Lifetime withdrawn total of an account, read through `findUser`. -/
def userReferralWithdrawn (db : Db) (uid : Nat) : Option Int :=
  (findUser db uid).map (fun u => u.referral_withdrawn)

/-- Status of a generation row, read through `findGeneration`. -/
def generationStatusOf (db : Db) (gid : Nat) : Option GenerationStatus :=
  (findGeneration db gid).map (fun g => g.status)

/-! ## Configuration (services/generation.py, config.py) -/

/-- `MODEL_PRICES` table from `services/generation.py`. -/
def MODEL_PRICES : List (String × Int) :=
  [ ("kling-video/v2.0/master/text-to-video", 15)
  , ("kling-video/v2.0/master/image-to-video", 15)
  , ("kling-video/v1.6/pro/text-to-video", 10)
  , ("kling-video/v1.5/pro/text-to-video", 7)
  , ("minimax-video/video-01", 12)
  , ("runway/gen4-turbo", 15)
  , ("bytedance/seedance-1-lite", 8)
  , ("google/veo-3.1-generate", 20)
  , ("wan-ai/wan2.1-t2v-turbo", 5)
  , ("wan-ai/wan2.6-t2v-turbo", 7)
  , ("openai/sora-2-pro", 20)
  , ("flux-pro/v1.1-ultra", 3)
  , ("google/imagen-4", 4)
  , ("gpt-image-1", 5)
  , ("nano-banana", 1) ]

/-- `MODEL_PRICES.get(model_id, 10)` from `start_generation` step 4. -/
def modelPrice (model_id : String) : Int :=
  match MODEL_PRICES.find? (fun p => p.1 == model_id) with
  | some p => p.2
  | none => 10

/-- `MAX_ACTIVE_GENERATIONS` from `services/generation.py`. -/
def MAX_ACTIVE_GENERATIONS : Nat := 5

/-- `RATE_LIMIT_PER_MINUTE` from `services/generation.py`. -/
def RATE_LIMIT_PER_MINUTE : Nat := 10

/-- `GENERATION_TIMEOUT` (seconds) from `services/generation.py`. -/
def GENERATION_TIMEOUT : Nat := 600

/-- `settings.referral_commission_percent` from `config.py`. -/
def referral_commission_percent : Int := 25

/-- `settings.min_withdrawal_uzs` from `config.py`. -/
def min_withdrawal_uzs : Int := 300000

/-! ## Generation service (services/generation.py) -/

/-- The exception taxonomy raised by `GenerationService` (the `AppError`
subclasses defined at the top of `services/generation.py`, plus the plain
`PermissionError` / `ValueError` / `AttributeError` that
`cancel_generation` can raise). -/
inductive GenError where
  | userNotFound
  | userBanned
  | maxActiveGenerations
  | rateLimit
  | duplicateRequest
  | insufficientCredits (required : Int) (available : Int)
  | concurrentUpdate
  | generationNotFound
  | permissionError
  | valueError (currentStatus : GenerationStatus)
  | attributeError
deriving DecidableEq, Repr

/-- `GenerationRequest` schema fields consumed by `start_generation`. -/
structure GenerationRequest where
  user_id : Nat
  model_id : String
  model_name : String
  generation_type : String
  prompt : String
deriving DecidableEq, Repr

/-- Dict returned by `start_generation` (the fields the claims consult). -/
structure StartResult where
  id : Nat
  credits_charged : Int
  new_balance : Int
deriving DecidableEq, Repr

/-- `check_limits` count of this user's generations in PENDING/PROCESSING. -/
def active_count (db : Db) (uid : Nat) : Nat :=
  (db.generations.filter (fun g =>
    g.user_id == uid &&
      (g.status == GenerationStatus.pending || g.status == GenerationStatus.processing))).length

/-- `check_limits` count of this user's generations created in the last 60s
(`created_at >= now - 60`). -/
def recent_count (db : Db) (uid : Nat) : Nat :=
  (db.generations.filter (fun g => g.user_id == uid && db.now ≤ g.created_at + 60)).length

/-- Python truthiness of the `Optional[str]` idempotency key:
`None` and the empty string are falsy. -/
def truthy_key : Option String → Bool
  | none => false
  | some s => !(s == "")

/-- `check_idempotency`: `if not idempotency_key: return None` — a falsy
(absent or empty) key is never deduplicated; otherwise the existing
generation with this `(user_id, idempotency_key)` pair, if any. -/
def check_idempotency (db : Db) (uid : Nat) (idempotency_key : Option String) :
    Option Generation :=
  if !(truthy_key idempotency_key) then none
  else db.generations.find? (fun g =>
    g.user_id == uid && g.idempotency_key == idempotency_key)

/-- The SET clause of the atomic charge UPDATE in `start_generation`
step 5. -/
def apply_charge (now : Nat) (price : Int) (u : User) : User :=
  { u with credits := u.credits - price
           total_spent_credits := u.total_spent_credits + price
           total_generations := u.total_generations + 1
           last_active_at := now }

/-- The PENDING `Generation` row inserted by `start_generation` step 6. -/
def new_generation_row (db : Db) (request : GenerationRequest)
    (idempotency_key : Option String) (price : Int) (uid : Nat) : Generation :=
  { id := db.next_generation_id
    user_id := uid
    model_id := request.model_id
    model_name := request.model_name
    generation_type := request.generation_type
    prompt := request.prompt
    credits_charged := price
    status := .pending
    idempotency_key := idempotency_key
    aiml_task_id := none
    result_url := none
    error_message := none
    created_at := db.now
    started_at := none
    completed_at := none }

/-- The `-price` GENERATION `Transaction` written by `start_generation`
step 7 (its `reference_id` is set to the new job id after the flush). -/
def charge_tx (uid : Nat) (price : Int) (gid : Nat) : Tx :=
  { user_id := uid
    type := .generation
    amount := -price
    reference_id := some gid }

/-- `GenerationService.start_generation`: validate user, limits and
idempotency, atomically charge `price`, insert the PENDING job row and its
`-price` GENERATION ledger entry. -/
def start_generation (db : Db) (request : GenerationRequest)
    (idempotency_key : Option String) : Except GenError (StartResult × Db) :=
  match findUser db request.user_id with
  | none => .error .userNotFound
  | some user =>
    if user.is_banned then .error .userBanned
    else if MAX_ACTIVE_GENERATIONS ≤ active_count db user.id then .error .maxActiveGenerations
    else if RATE_LIMIT_PER_MINUTE ≤ recent_count db user.id then .error .rateLimit
    else if truthy_key idempotency_key &&
            (check_idempotency db user.id idempotency_key).isSome then
      .error .duplicateRequest
    else
      let price := modelPrice request.model_id
      if user.credits < price then .error (.insufficientCredits price user.credits)
      else if price ≤ user.credits then
        -- conditional UPDATE ... WHERE credits >= price
        let db1 := updateUser db user.id (apply_charge db.now price)
        let gen := new_generation_row db request idempotency_key price user.id
        let charge := charge_tx user.id price gen.id
        let db2 : Db :=
          { db1 with generations := db1.generations ++ [gen]
                     transactions := db1.transactions ++ [charge]
                     next_generation_id := db1.next_generation_id + 1 }
        .ok ({ id := gen.id, credits_charged := price, new_balance := user.credits - price }, db2)
      else .error .concurrentUpdate

/-! ## AIML client (services/aiml.py) -/

/-- One reply of `get_video_status`: the raw `status` string, together with
the result URL that `process_generation` would extract from the reply body
(`video.url` / `output.video_url` / `result_url`, flattened). -/
structure VideoPollReply where
  status : String
  url : Option String
deriving DecidableEq, Repr

/-- Errors escaping `wait_for_video`: `TimeoutError` after `max_wait`
seconds of polling, or the `Exception("Generation failed: ...")` raised on
a terminal failed/error provider status. -/
inductive WaitError where
  | timeout
  | generationFailed (status : String)
deriving DecidableEq, Repr

/-- A provider reply that ends the polling loop of `wait_for_video`:
completed/succeeded (returned) or failed/error (raised). -/
def isTerminalReply (r : VideoPollReply) : Bool :=
  r.status == "completed" || r.status == "succeeded"
    || r.status == "failed" || r.status == "error"

/-- The polling loop body of `AIMLClient.wait_for_video`: the `n` remaining
iterations of `while elapsed < max_wait`, with `k` polls already made.  Each
iteration polls once, returns on `completed`/`succeeded`, raises on
`failed`/`error`, and otherwise sleeps `poll_interval` seconds.  The second
component counts the polls performed. -/
def wait_for_video_loop (poll : Nat → VideoPollReply) :
    Nat → Nat → Except WaitError VideoPollReply × Nat
  | 0, k => (.error .timeout, k)
  | n + 1, k =>
    let r := poll k
    if r.status == "completed" || r.status == "succeeded" then (.ok r, k + 1)
    else if r.status == "failed" || r.status == "error" then
      (.error (.generationFailed r.status), k + 1)
    else wait_for_video_loop poll n (k + 1)

/-- `AIMLClient.wait_for_video`: starting from `elapsed = 0`, the loop
`while elapsed < max_wait` runs `⌈max_wait / poll_interval⌉` times when no
poll is terminal, since `elapsed` grows by `poll_interval` per iteration. -/
def wait_for_video (poll : Nat → VideoPollReply) (max_wait poll_interval : Nat) :
    Except WaitError VideoPollReply × Nat :=
  wait_for_video_loop poll ((max_wait + poll_interval - 1) / poll_interval) 0

/-- External provider behaviour for one `process_generation` run:
the image-generation response (result URL of `data[0].url`, or a raised
exception), the video-submission response (`id`/`task_id`, or a raised
exception), and the poll replies. -/
structure Provider where
  imageResult : Except String (Option String)
  videoSubmit : Except String (Option String)
  poll : Nat → VideoPollReply

/-! ## Background processing and cancellation (services/generation.py) -/

/-- The PROCESSING transition of `process_generation` step 2. -/
def set_processing (now : Nat) (g : Generation) : Generation :=
  { g with status := .processing, started_at := some now }

/-- Recording of the provider task handle in `process_generation`. -/
def set_task (task_id : String) (g : Generation) : Generation :=
  { g with aiml_task_id := some task_id }

/-- The FAILED transition of `_handle_generation_failure`. -/
def set_failed (error_message : String) (now : Nat) (g : Generation) : Generation :=
  { g with status := .failed
           error_message := some error_message
           completed_at := some now }

/-- The COMPLETED transition of `process_generation` step 6. -/
def set_completed (url : String) (now : Nat) (g : Generation) : Generation :=
  { g with status := .completed
           result_url := some url
           completed_at := some now }

/-- The refund mutation `user.credits += generation.credits_charged`. -/
def apply_refund (amount : Int) (u : User) : User :=
  { u with credits := u.credits + amount }

/-- `GenerationService._handle_generation_failure`: set the job FAILED with
the error message, and refund `credits_charged` to the owner together with
a REFUND ledger entry.  Note it does not check the job's current status. -/
def handle_generation_failure (db : Db) (gid : Nat) (error_message : String) : Db :=
  match findGeneration db gid with
  | none => db
  | some gen =>
    let db1 := updateGeneration db gid (set_failed error_message db.now)
    match findUser db1 gen.user_id with
    | none => db1
    | some _ =>
      let db2 := updateUser db1 gen.user_id (apply_refund gen.credits_charged)
      { db2 with transactions := db2.transactions ++
          [{ user_id := gen.user_id
             type := .refund
             amount := gen.credits_charged
             reference_id := some gen.id }] }

/-- The COMPLETED branch of `process_generation` step 6. -/
def complete_generation (db : Db) (gid : Nat) (url : String) : Db :=
  updateGeneration db gid (set_completed url db.now)

/-- `GenerationService.process_generation`: no-op unless the job is
PENDING; transition to PROCESSING; submit to the provider (synchronous for
images, submit-then-poll for video); COMPLETED on a usable result URL, and
`_handle_generation_failure` on provider failure, missing URL, missing
task id, or `wait_for_video` timeout. -/
def process_generation (db : Db) (gid : Nat) (prov : Provider) : Db :=
  match findGeneration db gid with
  | none => db
  | some gen =>
    if gen.status != GenerationStatus.pending then db
    else
      let db1 := updateGeneration db gid (set_processing db.now)
      if gen.generation_type == "image" then
        match prov.imageResult with
        | .error e => handle_generation_failure db1 gid e
        | .ok none => handle_generation_failure db1 gid "No result URL in AIML response"
        | .ok (some url) => complete_generation db1 gid url
      else
        match prov.videoSubmit with
        | .error e => handle_generation_failure db1 gid e
        | .ok none => handle_generation_failure db1 gid "No task_id in AIML response"
        | .ok (some task_id) =>
          let db2 := updateGeneration db1 gid (set_task task_id)
          match (wait_for_video prov.poll GENERATION_TIMEOUT 10).1 with
          | .error .timeout =>
            handle_generation_failure db2 gid "Generation timeout"
          | .error (.generationFailed e) => handle_generation_failure db2 gid e
          | .ok reply =>
            match reply.url with
            | some url => complete_generation db2 gid url
            | none => handle_generation_failure db2 gid "No result URL in AIML response"

/-- Dict returned by `cancel_generation` on success. -/
structure CancelResult where
  id : Nat
  credits_refunded : Int
  new_balance : Int
deriving DecidableEq, Repr

/-- `GenerationService.cancel_generation`: only the owner may cancel, only
from PENDING/PROCESSING; then the code executes
`generation.status = GenerationStatus.CANCELLED` — an attribute lookup on
the enum class, which has no `CANCELLED` member, so the assignment raises
`AttributeError` before any mutation is committed.  The `some` branch
translates the remainder of the source (status update, refund and REFUND
ledger entry) for the member the lookup would have produced. -/
def cancel_generation (db : Db) (generation_id user_id : Nat) :
    Except GenError (CancelResult × Db) :=
  match findGeneration db generation_id with
  | none => .error .generationNotFound
  | some gen =>
    if gen.user_id != user_id then .error .permissionError
    else if !(gen.status == GenerationStatus.pending
              || gen.status == GenerationStatus.processing) then
      .error (.valueError gen.status)
    else
      match GenerationStatus.attr "CANCELLED" with
      | none => .error .attributeError
      | some cancelled =>
        let db1 := updateGeneration db generation_id (fun g =>
          { g with status := cancelled
                   completed_at := some db.now
                   error_message := some "Cancelled by user" })
        match findUser db1 user_id with
        | none => .ok ({ id := gen.id, credits_refunded := gen.credits_charged
                         new_balance := 0 }, db1)
        | some u =>
          let db2 := updateUser db1 user_id (fun v =>
            { v with credits := v.credits + gen.credits_charged })
          let db3 : Db :=
            { db2 with transactions := db2.transactions ++
                [{ user_id := user_id
                   type := .refund
                   amount := gen.credits_charged
                   reference_id := some gen.id }] }
          .ok ({ id := gen.id, credits_refunded := gen.credits_charged
                 new_balance := u.credits + gen.credits_charged }, db3)

/-! ## Referral service (services/referral.py) -/

/-- `select(User).where(User.referral_code == code)`. -/
def findUserByReferralCode (db : Db) (code : String) : Option User :=
  db.users.find? (fun u => u.referral_code == some code)

/-- `ReferralService.process_referral`: resolve the code to a referrer,
refuse self-referral, return the existing `referrer_id` unchanged if it is
already set, otherwise link it, create the `Referral` edge and bump the
referrer's `referrals_count`.  Returns the linked referrer id (or `None`). -/
def process_referral (db : Db) (new_user_id : Nat) (referral_code : String) :
    Option Nat × Db :=
  match findUserByReferralCode db referral_code with
  | none => (none, db)
  | some referrer =>
    if referrer.id == new_user_id then (none, db)
    else
      match findUser db new_user_id with
      | none => (none, db)
      | some new_user =>
        match new_user.referrer_id with
        | some existing => (some existing, db)
        | none =>
          let db1 := updateUser db new_user_id (fun u => { u with referrer_id := some referrer.id })
          let db2 : Db :=
            { db1 with referrals := db1.referrals ++
                [{ referrer_id := referrer.id, referred_id := new_user_id, total_earned := 0 }] }
          let db3 := updateUser db2 referrer.id (fun u =>
            { u with referrals_count := u.referrals_count + 1 })
          (some referrer.id, db3)

/-- Python `int()` applied to an exact rational value: truncation toward
zero. -/
def pyInt (q : ℚ) : Int :=
  q.num.tdiv q.den

/-- The commission expression of `process_commission`:
`int(payment_amount_uzs * settings.referral_commission_percent / 100)`.
Python's float true-division is idealized as exact rational division; the
two agree whenever `|amount * percent|` stays below `2^53`, which covers
the whole range of the 32-bit `amount_uzs` Integer column. -/
def commission_of (payment_amount_uzs percent : Int) : Int :=
  pyInt ((payment_amount_uzs : ℚ) * (percent : ℚ) / 100)

/-- Dict returned by `process_commission` on success. -/
structure CommissionInfo where
  referrer_id : Nat
  commission : Int
  referrer_new_balance : Int
deriving DecidableEq, Repr

/-- The referrer mutation of `process_commission`: credit the commission
to both `referral_total_earned` and `referral_balance`. -/
def apply_commission (commission : Int) (r : User) : User :=
  { r with referral_total_earned := r.referral_total_earned + commission
           referral_balance := r.referral_balance + commission }

/-- Marking the payer's first payment in `process_commission`. -/
def apply_first_payment (now : Nat) (u : User) : User :=
  { u with first_payment_at := some now }

/-- The referrer's active-referrals bump in `process_commission`. -/
def apply_referrals_active_bump (r : User) : User :=
  { r with referrals_active := r.referrals_active + 1 }

/-- `ReferralService.process_commission`: if the paying user has a
referrer, credit `commission_of` the payment amount to the referrer's
`referral_balance` and `referral_total_earned`, mark the payer's first
payment (bumping `referrals_active` once), and bump the `Referral` edge's
cumulative total.  No ledger `Transaction` is written. -/
def process_commission (db : Db) (user_id : Nat) (payment_amount_uzs : Int) :
    Option CommissionInfo × Db :=
  match findUser db user_id with
  | none => (none, db)
  | some user =>
    match user.referrer_id with
    | none => (none, db)
    | some rid =>
      match findUser db rid with
      | none => (none, db)
      | some referrer =>
        let commission := commission_of payment_amount_uzs referral_commission_percent
        let db1 := updateUser db rid (apply_commission commission)
        let db2 :=
          if user.first_payment_at == none then
            let dbA := updateUser db1 user_id (apply_first_payment db.now)
            updateUser dbA rid apply_referrals_active_bump
          else db1
        let db3 : Db :=
          { db2 with referrals := db2.referrals.map (fun e =>
              if e.referrer_id == rid && e.referred_id == user_id then
                { e with total_earned := e.total_earned + commission }
              else e) }
        (some { referrer_id := rid
                commission := commission
                referrer_new_balance := referrer.referral_balance + commission }, db3)

/-! ## Payment service (services/payment.py) -/

/-- `PaymentService` raises plain `ValueError(msg)`; the message string is
the error value. -/
abbrev PayError := String

/-- Dict returned by `confirm_topup`. -/
structure TopupResult where
  user_id : Nat
  credits_added : Int
  new_balance : Int
  commission_info : Option CommissionInfo
deriving DecidableEq, Repr

/-- The payer mutation of `confirm_topup`: add the purchased credits and
record the UZS spent. -/
def apply_topup_credit (credits amount_uzs : Int) (u : User) : User :=
  { u with credits := u.credits + credits
           total_spent_uzs := u.total_spent_uzs + amount_uzs }

/-- `PaymentService.confirm_topup`: a PENDING payment is APPROVED, the
payer's `credits` grow by `payment.credits` and `total_spent_uzs` by the
paid amount, and the referral commission runs when `referrer_id` is set.
No ledger `Transaction` is written for the credited amount. -/
def confirm_topup (db : Db) (payment_id admin_id : Nat) :
    Except PayError (TopupResult × Db) :=
  match findPayment db payment_id with
  | none => .error "Payment not found"
  | some payment =>
    if payment.status != PaymentStatus.pending then .error "Payment already processed"
    else
      match findUser db payment.user_id with
      | none => .error "User not found"
      | some user =>
        let db1 := updatePayment db payment_id (fun p =>
          { p with status := .approved
                   admin_id := some admin_id
                   processed_at := some db.now })
        let db2 := updateUser db1 user.id (apply_topup_credit payment.credits payment.amount_uzs)
        let step :=
          if user.referrer_id.isSome then
            process_commission db2 user.id payment.amount_uzs
          else (none, db2)
        let db4 :=
          match step.1 with
          | some info => updatePayment step.2 payment_id (fun p =>
              { p with referral_commission := info.commission })
          | none => step.2
        .ok ({ user_id := user.id
               credits_added := payment.credits
               new_balance := user.credits + payment.credits
               commission_info := step.1 }, db4)

/-- `PaymentService.reject_topup`: a PENDING payment becomes REJECTED with
no balance change. -/
def reject_topup (db : Db) (payment_id admin_id : Nat) :
    Except PayError (Nat × Db) :=
  match findPayment db payment_id with
  | none => .error "Payment not found"
  | some payment =>
    if payment.status != PaymentStatus.pending then .error "Payment already processed"
    else
      let db1 := updatePayment db payment_id (fun p =>
        { p with status := .rejected
                 admin_id := some admin_id
                 processed_at := some db.now })
      .ok (payment.user_id, db1)

/-- `card_number.replace(" ", "").replace("-", "")`: replacing a
single-character pattern by the empty string removes every occurrence of
that character. -/
def clean_card (card_number : String) : String :=
  String.mk (card_number.data.filter (fun c => !(c == ' ') && !(c == '-')))

/-- Python `str.startswith`. -/
def str_startswith (s p : String) : Bool :=
  p.data.isPrefixOf s.data

/-- Dict returned by `create_withdrawal_request`. -/
structure WithdrawalResult where
  withdrawal_id : Nat
  user_id : Nat
  amount_uzs : Int
  card_type : CardType
deriving DecidableEq, Repr

/-- The card-type classification by prefix in `create_withdrawal_request`:
UZCARD for `8600...`, HUMO for `9860...`, otherwise rejected. -/
def card_type_of (cc : String) : Option CardType :=
  if str_startswith cc "8600" then some .uzcard
  else if str_startswith cc "9860" then some .humo
  else none

/-- The PENDING/FROZEN withdrawal of this account, if any (the duplicate
check in `create_withdrawal_request`). -/
def pending_withdrawal_of (db : Db) (uid : Nat) : Option Withdrawal :=
  db.withdrawals.find? (fun w =>
    w.user_id == uid &&
      (w.status == WithdrawalStatus.pending || w.status == WithdrawalStatus.frozen))

/-- The user mutation of `create_withdrawal_request`: freeze the amount
out of `referral_balance` and save the card when none is saved yet. -/
def apply_freeze (amount_uzs : Int) (cc : String) (card_type : CardType) (u : User) : User :=
  let u1 := { u with referral_balance := u.referral_balance - amount_uzs }
  if u1.saved_card_number == none then
    { u1 with saved_card_number := some cc
              saved_card_type := some (if card_type == CardType.uzcard
                                       then "uzcard" else "humo") }
  else u1

/-- `PaymentService.create_withdrawal_request`: requires the configured
minimum, a sufficient `referral_balance`, a 16-digit UZCARD (8600) or HUMO
(9860) card and no other PENDING/FROZEN withdrawal; then atomically debits
`referral_balance` by the amount and inserts a FROZEN withdrawal row.  No
ledger `Transaction` is written for the debit. -/
def create_withdrawal_request (db : Db) (user_id : Nat) (amount_uzs : Int)
    (card_number : String) : Except PayError (WithdrawalResult × Db) :=
  match findUser db user_id with
  | none => .error "User not found"
  | some user =>
    if amount_uzs < min_withdrawal_uzs then .error "Minimum withdrawal"
    else if user.referral_balance < amount_uzs then .error "Insufficient balance"
    else
      let cc := clean_card card_number
      if cc.length != 16 then .error "Invalid card number"
      else
        match card_type_of cc with
        | none => .error "Only UZCARD (8600) or HUMO (9860) cards accepted"
        | some card_type =>
          if (pending_withdrawal_of db user_id).isSome then
            .error "You have a pending withdrawal request"
          else
            let db1 := updateUser db user_id (apply_freeze amount_uzs cc card_type)
            let w : Withdrawal :=
              { id := db.next_withdrawal_id
                user_id := user_id
                amount_uzs := amount_uzs
                card_number := cc
                card_type := card_type
                status := .frozen
                admin_id := none
                idempotency_key := none
                processed_at := none }
            let db2 : Db :=
              { db1 with withdrawals := db1.withdrawals ++ [w]
                         next_withdrawal_id := db1.next_withdrawal_id + 1 }
            .ok ({ withdrawal_id := w.id, user_id := user_id
                   amount_uzs := amount_uzs, card_type := card_type }, db2)

/-- The admin decision stamped onto a withdrawal row. -/
def set_withdrawal_status (st : WithdrawalStatus) (admin_id now : Nat) (w : Withdrawal) :
    Withdrawal :=
  { w with status := st, admin_id := some admin_id, processed_at := some now }

/-- The payout bookkeeping of `confirm_withdrawal`. -/
def apply_withdrawn (amount : Int) (u : User) : User :=
  { u with referral_withdrawn := u.referral_withdrawn + amount }

/-- The refund of the frozen amount in `reject_withdrawal`. -/
def apply_unfreeze (amount : Int) (u : User) : User :=
  { u with referral_balance := u.referral_balance + amount }

/-- `PaymentService.confirm_withdrawal`: a PENDING/FROZEN withdrawal is
APPROVED; only `referral_withdrawn` grows — the balance was already
debited at creation. -/
def confirm_withdrawal (db : Db) (withdrawal_id admin_id : Nat) :
    Except PayError ((Nat × Int) × Db) :=
  match findWithdrawal db withdrawal_id with
  | none => .error "Withdrawal not found"
  | some w =>
    if !(w.status == WithdrawalStatus.pending || w.status == WithdrawalStatus.frozen) then
      .error "Withdrawal already processed"
    else
      match findUser db w.user_id with
      | none => .error "User not found"
      | some user =>
        let db1 := updateWithdrawal db withdrawal_id
          (set_withdrawal_status .approved admin_id db.now)
        let db2 := updateUser db1 user.id (apply_withdrawn w.amount_uzs)
        .ok ((user.id, w.amount_uzs), db2)

/-- `PaymentService.reject_withdrawal`: a PENDING/FROZEN withdrawal is
REJECTED and the frozen amount is credited back to `referral_balance`. -/
def reject_withdrawal (db : Db) (withdrawal_id admin_id : Nat) :
    Except PayError ((Nat × Int) × Db) :=
  match findWithdrawal db withdrawal_id with
  | none => .error "Withdrawal not found"
  | some w =>
    if !(w.status == WithdrawalStatus.pending || w.status == WithdrawalStatus.frozen) then
      .error "Withdrawal already processed"
    else
      match findUser db w.user_id with
      | none => .error "User not found"
      | some user =>
        let db1 := updateUser db user.id (apply_unfreeze w.amount_uzs)
        let db2 := updateWithdrawal db1 withdrawal_id
          (set_withdrawal_status .rejected admin_id db.now)
        .ok ((user.id, w.amount_uzs), db2)

/-! ## User service (services/user.py) -/

/-- The Telegram identity consumed by `get_or_create_user`. -/
structure TelegramUser where
  id : Nat
  username : Option String
deriving DecidableEq, Repr

/-- `UserService.get_or_create_user`: return the existing row (refreshing
profile fields), or create a new user with `credits=10  # Welcome bonus`
and a fresh referral code (`generated_code` models the
`secrets.token_urlsafe(8)` draw); an optional referral code links the
referrer at creation when it resolves to another account. -/
def get_or_create_user (db : Db) (tg : TelegramUser) (referral_code : Option String)
    (generated_code : String) : User × Db :=
  match findUser db tg.id with
  | some user =>
    let user1 := { user with username := tg.username, last_active_at := db.now }
    (user1, updateUser db tg.id (fun _ => user1))
  | none =>
    let base : User :=
      { mkUser tg.id with
          username := tg.username
          credits := 10
          referral_code := some generated_code
          last_active_at := db.now }
    let linked : User × List Referral :=
      match referral_code with
      | none => (base, db.referrals)
      | some code =>
        match findUserByReferralCode db code with
        | some referrer =>
          if referrer.id != tg.id then
            ({ base with referrer_id := some referrer.id },
             db.referrals ++
               [{ referrer_id := referrer.id, referred_id := tg.id, total_earned := 0 }])
          else (base, db.referrals)
        | none => (base, db.referrals)
    (linked.1, { db with users := db.users ++ [linked.1], referrals := linked.2 })

/-! ## Concrete fixtures used by witnesses and counterexamples -/

/-- An empty database. -/
def emptyDb : Db :=
  { now := 0, users := [], generations := [], transactions := [], payments := []
    withdrawals := [], referrals := [], next_generation_id := 1, next_withdrawal_id := 1 }

/-- A PENDING video generation row owned by user `uid`, charged 15. -/
def pendingVideoGen (gid uid : Nat) : Generation :=
  { id := gid, user_id := uid, model_id := "runway/gen4-turbo", model_name := "Runway"
    generation_type := "video", prompt := "a cat", credits_charged := 15
    status := .pending, idempotency_key := none, aiml_task_id := none
    result_url := none, error_message := none, created_at := 50
    started_at := none, completed_at := none }

/-- Fixture for C1: user 1 was charged 15 credits for pending job 1. -/
def c1_db : Db :=
  { emptyDb with
      now := 100
      users := [{ mkUser 1 with credits := 85 }]
      generations := [pendingVideoGen 1 1]
      transactions := [{ user_id := 1, type := .generation, amount := -15, reference_id := some 1 }]
      next_generation_id := 2 }

/-- Fixture for C8: user 3 owns pending job 2. -/
def c8_db : Db :=
  { emptyDb with
      now := 100
      users := [{ mkUser 3 with credits := 985 }]
      generations := [pendingVideoGen 2 3]
      transactions := [{ user_id := 3, type := .generation, amount := -15, reference_id := some 2 }]
      next_generation_id := 3 }

/-- Fixture for C2: user 1 with 100 credits and no jobs. -/
def c2_db : Db :=
  { emptyDb with users := [{ mkUser 1 with credits := 100 }] }

/-- Fixture for C2: a nano-banana (1 credit) request by user 1. -/
def c2_req : GenerationRequest :=
  { user_id := 1, model_id := "nano-banana", model_name := "Nano Banana"
    generation_type := "image", prompt := "a banana" }

/-- The state after the first `start_generation` call of C2. -/
def c2_db1 : Db :=
  match start_generation c2_db c2_req (some "KEY") with
  | .ok p => p.2
  | .error _ => c2_db

/-- Fixture for C3: user 1 with zero credits and an untouched ledger, and a
pending 100-credit top-up payment. -/
def c3_db : Db :=
  { emptyDb with
      users := [{ mkUser 1 with credits := 0 }]
      payments := [{ id := 1, user_id := 1, credits := 100, amount_uzs := 50000
                     status := .pending, admin_id := none, referrer_id := none
                     referral_commission := 0, idempotency_key := none, processed_at := none }] }

/-- The state after the admin approves the C3 top-up. -/
def c3_db1 : Db :=
  match confirm_topup c3_db 1 99 with
  | .ok p => p.2
  | .error _ => c3_db

/-- Fixture for C4: user 1 was charged 15 for pending video job 1. -/
def c4_db : Db := c1_db

/-- A provider whose video task is accepted but never reaches a terminal
status. -/
def c4_prov : Provider :=
  { imageResult := .error "unused"
    videoSubmit := .ok (some "task-1")
    poll := fun _ => { status := "generating", url := none } }

/-- Fixture for C5: user 1 has referral balance 1,000,000 UZS. -/
def c5_db : Db :=
  { emptyDb with users := [{ mkUser 1 with referral_balance := 1000000 }] }

/-- Fixture for C6: user 1 is referred by user 2. -/
def c6_db : Db :=
  { emptyDb with
      users := [{ mkUser 1 with referrer_id := some 2 }
              , { mkUser 2 with referral_balance := 5, referral_total_earned := 7 }]
      referrals := [{ referrer_id := 2, referred_id := 1, total_earned := 0 }] }

/-- Fixture for C7: user 1 with code `AAA`, already referred by user 2. -/
def c7_u1 : User := { mkUser 1 with referral_code := some "AAA", referrer_id := some 2 }

/-- Fixture for C7: user 2 with code `BBB`. -/
def c7_u2 : User := { mkUser 2 with referral_code := some "BBB" }

/-- Fixture for C7: user 1 (code `AAA`) already has referrer 2 (code
`BBB`). -/
def c7_db : Db :=
  { emptyDb with users := [c7_u1, c7_u2] }

/-- Fixture for C9: user 1 holds 10 credits (below the 15-credit model). -/
def c9_db : Db :=
  { emptyDb with users := [mkUser 1] }

/-- Fixture for C9: a request for a 15-credit model. -/
def c9_req : GenerationRequest :=
  { user_id := 1, model_id := "kling-video/v2.0/master/text-to-video"
    model_name := "Kling", generation_type := "video", prompt := "a dog" }

/-! ## General lemmas about the table helpers -/

theorem find?_map_update {α : Type} (p : α → Bool) (f : α → α)
    (hf : ∀ x, p (f x) = p x) :
    ∀ l : List α, (l.map (fun x => if p x then f x else x)).find? p = (l.find? p).map f := by
  intro l
  induction l with
  | nil => simp
  | cons a l ih =>
    simp only [List.map_cons]
    by_cases h : p a
    · rw [if_pos h, List.find?_cons_of_pos _ (by rw [hf a]; exact h),
          List.find?_cons_of_pos _ h]
      rfl
    · rw [if_neg h, List.find?_cons_of_neg _ (by simpa using h),
          List.find?_cons_of_neg _ (by simpa using h), ih]

theorem find?_map_frozen {α : Type} (p q : α → Bool) (f : α → α)
    (hq : ∀ x, q (f x) = q x) (hpq : ∀ x, q x = true → p x = false) :
    ∀ l : List α, (l.map (fun x => if p x then f x else x)).find? q = l.find? q := by
  intro l
  induction l with
  | nil => simp
  | cons a l ih =>
    by_cases h : q a
    · have hp : p a = false := hpq a h
      rw [List.map_cons, hp]
      rw [if_neg (by simp), List.find?_cons_of_pos _ h, List.find?_cons_of_pos _ h]
    · rw [List.map_cons]
      by_cases hpa : p a
      · rw [if_pos hpa, List.find?_cons_of_neg _ (by rw [hq a]; simpa using h),
            List.find?_cons_of_neg _ (by simpa using h), ih]
      · rw [if_neg hpa, List.find?_cons_of_neg _ (by simpa using h),
            List.find?_cons_of_neg _ (by simpa using h), ih]

theorem txSum_append (txs : List Tx) (t : Tx) (uid : Nat) :
    txSum (txs ++ [t]) uid =
      txSum txs uid + (if t.user_id == uid then t.amount else 0) := by
  simp only [txSum, List.filter_append]
  by_cases h : t.user_id == uid
  · simp [h]
  · simp [h]

theorem jobTxSum_append (txs : List Tx) (t : Tx) (gid : Nat) :
    jobTxSum (txs ++ [t]) gid =
      jobTxSum txs gid + (if t.reference_id == some gid then t.amount else 0) := by
  simp only [jobTxSum, List.filter_append]
  by_cases h : t.reference_id == some gid
  · simp [h]
  · simp [h]

theorem refundCount_append (txs : List Tx) (t : Tx) (gid : Nat) :
    refundCount (txs ++ [t]) gid =
      refundCount txs gid +
        (if t.reference_id == some gid && t.type == TransactionType.refund then 1 else 0) := by
  simp only [refundCount, List.filter_append, List.length_append]
  by_cases h : t.reference_id == some gid && t.type == TransactionType.refund
  · simp [h]
  · simp [h]

theorem findUser_updateUser_self (db : Db) (uid : Nat) (f : User → User)
    (hf : ∀ v, (f v).id = v.id) :
    findUser (updateUser db uid f) uid = (findUser db uid).map f :=
  find?_map_update _ f (fun v => by simp [hf v]) db.users

theorem findUser_updateUser_other (db : Db) (uid1 : Nat) (f : User → User) (uid2 : Nat)
    (h : uid1 ≠ uid2) (hf : ∀ v, (f v).id = v.id) :
    findUser (updateUser db uid1 f) uid2 = findUser db uid2 :=
  find?_map_frozen _ _ f (fun v => by simp [hf v])
    (fun v hv => by
      simp only [beq_iff_eq] at hv
      simp [hv, h.symm]) db.users

theorem findGeneration_updateGeneration_self (db : Db) (gid : Nat)
    (f : Generation → Generation) (hf : ∀ g, (f g).id = g.id) :
    findGeneration (updateGeneration db gid f) gid = (findGeneration db gid).map f :=
  find?_map_update _ f (fun g => by simp [hf g]) db.generations

theorem findWithdrawal_updateWithdrawal_self (db : Db) (wid : Nat)
    (f : Withdrawal → Withdrawal) (hf : ∀ w, (f w).id = w.id) :
    findWithdrawal (updateWithdrawal db wid f) wid = (findWithdrawal db wid).map f :=
  find?_map_update _ f (fun w => by simp [hf w]) db.withdrawals

theorem wait_for_video_loop_timeout (poll : Nat → VideoPollReply)
    (hpoll : ∀ k, isTerminalReply (poll k) = false) :
    ∀ n k, wait_for_video_loop poll n k = (.error .timeout, k + n) := by
  intro n
  induction n with
  | zero => intro k; rfl
  | succ n ih =>
    intro k
    have h := hpoll k
    simp only [isTerminalReply, Bool.or_eq_false_iff] at h
    have harith : k + 1 + n = k + (n + 1) := by omega
    rw [wait_for_video_loop, if_neg (by simp [h.1.1.1, h.1.1.2]),
        if_neg (by simp [h.1.2, h.2]), ih (k + 1), harith]

theorem findUser_updateGeneration (db : Db) (gid : Nat) (f : Generation → Generation)
    (uid : Nat) : findUser (updateGeneration db gid f) uid = findUser db uid := rfl

theorem findUser_set_referrals (db : Db) (rs : List Referral) (uid : Nat) :
    findUser { db with referrals := rs } uid = findUser db uid := rfl

theorem findGeneration_updateUser (db : Db) (uid : Nat) (f : User → User)
    (gid : Nat) : findGeneration (updateUser db uid f) gid = findGeneration db gid := rfl

theorem findUser_updatePayment (db : Db) (pid : Nat) (f : Payment → Payment)
    (uid : Nat) : findUser (updatePayment db pid f) uid = findUser db uid := rfl

theorem findUser_updateWithdrawal (db : Db) (wid : Nat) (f : Withdrawal → Withdrawal)
    (uid : Nat) : findUser (updateWithdrawal db wid f) uid = findUser db uid := rfl

theorem findWithdrawal_updateUser (db : Db) (uid : Nat) (f : User → User)
    (wid : Nat) : findWithdrawal (updateUser db uid f) wid = findWithdrawal db wid := rfl

/-! ## Characterization of the success paths -/

/-- When every validation of `start_generation` passes, the call returns
the new job id with the price charged, debits exactly `price` from the
user and appends the PENDING row and the `-price` GENERATION entry. -/
theorem start_generation_success (db : Db) (req : GenerationRequest) (key : Option String)
    (u : User)
    (hu : findUser db req.user_id = some u)
    (hb : u.is_banned = false)
    (ha : active_count db u.id < MAX_ACTIVE_GENERATIONS)
    (hr : recent_count db u.id < RATE_LIMIT_PER_MINUTE)
    (hk : (truthy_key key && (check_idempotency db u.id key).isSome) = false)
    (hc : modelPrice req.model_id ≤ u.credits) :
    start_generation db req key = .ok
      ({ id := db.next_generation_id
         credits_charged := modelPrice req.model_id
         new_balance := u.credits - modelPrice req.model_id },
       { db with
           users := db.users.map (fun v =>
             if v.id == u.id then apply_charge db.now (modelPrice req.model_id) v else v)
           generations := db.generations ++
             [new_generation_row db req key (modelPrice req.model_id) u.id]
           transactions := db.transactions ++
             [charge_tx u.id (modelPrice req.model_id) db.next_generation_id]
           next_generation_id := db.next_generation_id + 1 }) := by
  unfold start_generation
  rw [hu]
  dsimp only
  rw [if_neg (by simp [hb]), if_neg (not_le.mpr ha), if_neg (not_le.mpr hr),
      if_neg (by simp [hk]), if_neg (not_lt.mpr hc), if_pos hc]
  rfl

/-- `_handle_generation_failure` marks the job FAILED and appends the
refund of `credits_charged` together with its REFUND ledger entry. -/
theorem handle_generation_failure_spec (db : Db) (gid : Nat) (msg : String)
    (gen : Generation) (u : User)
    (hg : findGeneration db gid = some gen)
    (hu : findUser db gen.user_id = some u) :
    handle_generation_failure db gid msg =
      { db with
          generations := db.generations.map (fun g =>
            if g.id == gid then set_failed msg db.now g else g)
          users := db.users.map (fun v =>
            if v.id == gen.user_id then apply_refund gen.credits_charged v else v)
          transactions := db.transactions ++
            [{ user_id := gen.user_id, type := .refund,
               amount := gen.credits_charged, reference_id := some gen.id }] } := by
  unfold handle_generation_failure
  rw [hg]
  dsimp only
  rw [findUser_updateGeneration, hu]
  rfl

/-! ## Claim C1 -/

/-- C1: the claim fails on the code.  The cancellation path issues zero
refunds: cancelling an owned PENDING job evaluates
`GenerationStatus.CANCELLED` — a member the enum does not have — so
`cancel_generation` raises `AttributeError` before committing any status
change or refund, and the job's ledger keeps the `-15` charge with no
REFUND entry (sum `-15`, not `0`). -/
theorem C1_cancellation_path_issues_zero_refunds :
    cancel_generation c1_db 1 1 = Except.error GenError.attributeError ∧
    refundCount c1_db.transactions 1 = 0 ∧
    jobTxSum c1_db.transactions 1 = -15 :=
  ⟨rfl, rfl, rfl⟩

/-! ## Claim C8 -/

/-- C8: the claim fails on the code.  Whenever the preconditions the claim
describes for a successful cancel hold — the job exists, the caller owns
it, and its status is PENDING or PROCESSING — `cancel_generation` raises
`AttributeError` (the `GenerationStatus` enum has no `CANCELLED` member),
so no job is ever cancelled or refunded through this path. -/
theorem C8_cancel_never_succeeds (db : Db) (gid uid : Nat) (gen : Generation)
    (hg : findGeneration db gid = some gen)
    (hown : gen.user_id = uid)
    (hst : gen.status = GenerationStatus.pending ∨ gen.status = GenerationStatus.processing) :
    cancel_generation db gid uid = Except.error GenError.attributeError := by
  unfold cancel_generation
  rw [hg]
  dsimp only
  rcases hst with h | h
  · rw [if_neg (by simp [hown]), if_neg (by simp [h])]
    rfl
  · rw [if_neg (by simp [hown]), if_neg (by simp [h])]
    rfl

/-- Witness for C8 at a concrete state: user 3 cancelling their own
PENDING job 2. -/
theorem C8_cancel_never_succeeds_witness :
    findGeneration c8_db 2 = some (pendingVideoGen 2 3) ∧
    (pendingVideoGen 2 3).user_id = 3 ∧
    ((pendingVideoGen 2 3).status = GenerationStatus.pending ∨
      (pendingVideoGen 2 3).status = GenerationStatus.processing) ∧
    cancel_generation c8_db 2 3 = Except.error GenError.attributeError :=
  ⟨rfl, rfl, Or.inl rfl,
    C8_cancel_never_succeeds c8_db 2 3 (pendingVideoGen 2 3) rfl rfl (Or.inl rfl)⟩

/-! ## Claim C2, counterexample -/

/-- C2 counterexample: the second `start_generation` call with the same
`(account, idempotencyKey)` does not return the existing job (or any job
id) — it raises `DuplicateRequestError`, which carries no job. -/
theorem C2_duplicate_call_returns_error_not_job :
    (start_generation c2_db c2_req (some "KEY")).isOk = true ∧
    start_generation c2_db1 c2_req (some "KEY") = Except.error GenError.duplicateRequest :=
  ⟨rfl, rfl⟩

/-! ## Claim C3, counterexample -/

/-- C3 counterexample: approving a 100-credit top-up for a user whose
ledger sums to 0 leaves the ledger sum at 0 while the balance becomes 100
— `confirm_topup` writes no `Transaction`, so the invariant `sum of
entries = balance` fails right after a top-up approval. -/
theorem C3_topup_approval_writes_no_ledger_entry :
    (confirm_topup c3_db 1 99).isOk = true ∧
    userCredits c3_db1 1 = some 100 ∧
    txSum c3_db1.transactions 1 = 0 :=
  ⟨rfl, rfl, rfl⟩

/-! ## Claim C7, counterexample -/

/-- C7 counterexample: user 1 already has referrer 2, yet
`process_referral` with user 1's own code returns `None` (the self-check
fires before the already-linked check), not the existing referrer.  The
call is still a no-op on the state. -/
theorem C7_linked_user_own_code_returns_none :
    (findUser c7_db 1).map (fun u => u.referrer_id) = some (some 2) ∧
    process_referral c7_db 1 "AAA" = (none, c7_db) :=
  ⟨rfl, rfl⟩

/-! ## Claim C9 -/

/-- C9: when the account's balance is strictly below the resolved model
price (and the earlier validations pass), `start_generation` raises
`InsufficientCreditsError` carrying the untouched balance.  The raise
happens before the UPDATE, the job insert and the ledger insert, and the
session is rolled back, so no charge, job row or ledger entry is created
(an error return in this embedding carries no state change). -/
theorem C9_insufficient_credits_rejected (db : Db) (req : GenerationRequest) (u : User)
    (hu : findUser db req.user_id = some u)
    (hb : u.is_banned = false)
    (ha : active_count db u.id < MAX_ACTIVE_GENERATIONS)
    (hr : recent_count db u.id < RATE_LIMIT_PER_MINUTE)
    (hc : u.credits < modelPrice req.model_id) :
    start_generation db req none =
      Except.error (GenError.insufficientCredits (modelPrice req.model_id) u.credits) := by
  unfold start_generation
  rw [hu]
  dsimp only
  rw [if_neg (by simp [hb]), if_neg (not_le.mpr ha), if_neg (not_le.mpr hr),
      if_neg (by simp [truthy_key]), if_pos hc]

/-- Witness for C9: a 10-credit account requesting a 15-credit model. -/
theorem C9_insufficient_credits_rejected_witness :
    findUser c9_db 1 = some (mkUser 1) ∧
    (mkUser 1).credits = 10 ∧
    modelPrice c9_req.model_id = 15 ∧
    start_generation c9_db c9_req none =
      Except.error (GenError.insufficientCredits 15 10) :=
  ⟨rfl, rfl, rfl,
    C9_insufficient_credits_rejected c9_db c9_req (mkUser 1) rfl rfl
      (by decide) (by decide) (by decide)⟩

/-! ## Claim C10 -/

/-- C10: a fresh account is created with 10 credits (`credits=10  #
Welcome bonus` in `get_or_create_user`), the `User.credits` column default
is likewise 10, and the cheapest model (`nano-banana`, 1 credit) costs at
most 10, so a new account can afford it without a top-up. -/
theorem C10_new_account_welcome_bonus (db : Db) (tg : TelegramUser) (gcode : String)
    (h : findUser db tg.id = none) :
    (get_or_create_user db tg none gcode).1.credits = 10 ∧
    findUser (get_or_create_user db tg none gcode).2 tg.id =
      some (get_or_create_user db tg none gcode).1 ∧
    user_credits_column_default = 10 ∧
    modelPrice "nano-banana" = 1 ∧
    modelPrice "nano-banana" ≤ 10 := by
  have h2 : db.users.find? (fun v => v.id == tg.id) = none := h
  unfold get_or_create_user
  rw [h]
  dsimp only
  refine ⟨rfl, ?_, rfl, by decide, by decide⟩
  show ((db.users ++ _).find? (fun v => v.id == tg.id)) = _
  rw [List.find?_append, h2]
  simp [mkUser]

/-- Witness for C10: the very first contact of Telegram user 7. -/
theorem C10_new_account_welcome_bonus_witness :
    findUser emptyDb 7 = none ∧
    (get_or_create_user emptyDb { id := 7, username := none } none "CODE").1.credits = 10 :=
  ⟨rfl, (C10_new_account_welcome_bonus emptyDb { id := 7, username := none } "CODE" rfl).1⟩

/-! ## Claim C7, amended -/

/-- C7 (amended): `process_referral` never links an account to itself
(a code resolving to the caller is refused), and once `referrer_id` is
set every further call leaves the state unchanged; such a call returns
the existing referrer when the code resolves to a different existing
account, and `None` (still a no-op) when the code is unknown or is the
caller's own. -/
theorem C7_referrer_linked_at_most_once :
    (∀ db uid code r, findUserByReferralCode db code = some r → r.id = uid →
        process_referral db uid code = (none, db)) ∧
    (∀ db uid code nu rid, findUser db uid = some nu → nu.referrer_id = some rid →
        (process_referral db uid code).2 = db ∧
        ((process_referral db uid code).1 = none ∨
          (process_referral db uid code).1 = some rid) ∧
        (∀ r, findUserByReferralCode db code = some r → r.id ≠ uid →
          (process_referral db uid code).1 = some rid)) := by
  constructor
  · intro db uid code r hr hid
    unfold process_referral
    rw [hr]
    dsimp only
    rw [if_pos (by simp [hid])]
  · intro db uid code nu rid hnu hrid
    cases hfr : findUserByReferralCode db code with
    | none =>
      have heval : process_referral db uid code = (none, db) := by
        unfold process_referral
        rw [hfr]
      rw [heval]
      exact ⟨rfl, Or.inl rfl, fun r hr _ => by cases hr⟩
    | some r =>
      by_cases hid : r.id = uid
      · have heval : process_referral db uid code = (none, db) := by
          unfold process_referral
          rw [hfr]
          dsimp only
          rw [if_pos (by simp [hid])]
        rw [heval]
        refine ⟨rfl, Or.inl rfl, ?_⟩
        intro r2 hr2 hne
        injection hr2 with e
        exact absurd (e ▸ hid) hne
      · have heval : process_referral db uid code = (some rid, db) := by
          unfold process_referral
          rw [hfr]
          dsimp only
          rw [if_neg (by simp [hid]), hnu]
          dsimp only
          rw [hrid]
        rw [heval]
        exact ⟨rfl, Or.inr rfl, fun _ _ _ => rfl⟩

/-- Witness for C7: on the concrete state, a self-code call returns
`None`, and a call with the referrer's own valid code returns the
existing referrer 2 — both without touching the state. -/
theorem C7_referrer_linked_at_most_once_witness :
    process_referral c7_db 1 "AAA" = (none, c7_db) ∧
    (process_referral c7_db 1 "BBB").1 = some 2 ∧
    (process_referral c7_db 1 "BBB").2 = c7_db :=
  ⟨C7_referrer_linked_at_most_once.1 c7_db 1 "AAA" c7_u1 rfl rfl,
   (C7_referrer_linked_at_most_once.2 c7_db 1 "BBB" c7_u1 2 rfl rfl).2.2 c7_u2 rfl (by decide),
   (C7_referrer_linked_at_most_once.2 c7_db 1 "BBB" c7_u1 2 rfl rfl).1⟩

/-! ## Claim C6 -/

theorem pyInt_eq_floor (q : ℚ) (h : 0 ≤ q) : pyInt q = ⌊q⌋ := by
  rw [pyInt, Rat.floor_def]
  exact Int.tdiv_eq_ediv (Rat.num_nonneg.mpr h) (Int.natCast_nonneg _)

theorem commission_of_floor (A : Int) (hA : 0 ≤ A) :
    commission_of A referral_commission_percent = (A * 25) / 100 := by
  have hq : (0 : ℚ) ≤ (A : ℚ) * ((25 : Int) : ℚ) / 100 := by
    have hA' : (0 : ℚ) ≤ (A : ℚ) := by exact_mod_cast hA
    have h25 : (0 : ℚ) ≤ ((25 : Int) : ℚ) := by norm_num
    exact div_nonneg (mul_nonneg hA' h25) (by norm_num)
  unfold commission_of referral_commission_percent
  rw [pyInt_eq_floor _ hq]
  rw [show ((A : ℚ) * ((25 : Int) : ℚ) / 100) = ((A * 25 : Int) : ℚ) / ((100 : ℕ) : ℚ) by
    push_cast
    ring]
  exact Rat.floor_intCast_div_natCast (A * 25) 100

/-- C6: for a paying account with a referrer on record, the commission is
`int(amount * 25 / 100)`, which for the whole non-negative range of the
32-bit `amount_uzs` column equals the exact integer floor `(A * 25) / 100`
(`Int./` is floor division for a positive divisor; Python's float
true-division is exact on this range, and is idealized here as exact
rational division), and both the referrer's `referral_balance` and
`referral_total_earned` grow by exactly that commission. -/
theorem C6_commission_exact_floor (db : Db) (uid : Nat) (A : Int) (u r : User) (rid : Nat)
    (hu : findUser db uid = some u)
    (hrid : u.referrer_id = some rid)
    (hr : findUser db rid = some r)
    (hne : uid ≠ rid)
    (hA : 0 ≤ A) (hbound : A ≤ 2147483647) :
    commission_of A referral_commission_percent = (A * 25) / 100 ∧
    (process_commission db uid A).1 =
      some { referrer_id := rid
             commission := commission_of A referral_commission_percent
             referrer_new_balance :=
               r.referral_balance + commission_of A referral_commission_percent } ∧
    userReferralBalance (process_commission db uid A).2 rid =
      some (r.referral_balance + commission_of A referral_commission_percent) ∧
    (findUser (process_commission db uid A).2 rid).map (fun v => v.referral_total_earned) =
      some (r.referral_total_earned + commission_of A referral_commission_percent) := by
  refine ⟨commission_of_floor A hA, ?_⟩
  unfold process_commission
  rw [hu]
  dsimp only
  rw [hrid]
  dsimp only
  rw [hr]
  dsimp only
  refine ⟨rfl, ?_⟩
  have h1 := findUser_updateUser_self db rid
    (apply_commission (commission_of A referral_commission_percent)) (fun v => rfl)
  by_cases hfp : (u.first_payment_at == none) = true
  · rw [if_pos hfp]
    have h2 := findUser_updateUser_other
      (updateUser db rid (apply_commission (commission_of A referral_commission_percent)))
      uid (apply_first_payment db.now) rid hne (fun v => rfl)
    have h3 := findUser_updateUser_self
      (updateUser
        (updateUser db rid (apply_commission (commission_of A referral_commission_percent)))
        uid (apply_first_payment db.now))
      rid apply_referrals_active_bump (fun v => rfl)
    constructor
    · show ((findUser _ rid).map (fun v => v.referral_balance)) = _
      rw [findUser_set_referrals, h3, h2, h1, hr]
      rfl
    · show ((findUser _ rid).map (fun v => v.referral_total_earned)) = _
      rw [findUser_set_referrals, h3, h2, h1, hr]
      rfl
  · rw [if_neg hfp]
    constructor
    · show ((findUser _ rid).map (fun v => v.referral_balance)) = _
      rw [findUser_set_referrals, h1, hr]
      rfl
    · show ((findUser _ rid).map (fun v => v.referral_total_earned)) = _
      rw [findUser_set_referrals, h1, hr]
      rfl

/-- Witness for C6: a 100,000-UZS payment by user 1, referred by user 2,
yields exactly 25,000 for the referrer. -/
theorem C6_commission_exact_floor_witness :
    commission_of 100000 referral_commission_percent = 25000 ∧
    userReferralBalance (process_commission c6_db 1 100000).2 2 = some 25005 ∧
    (findUser (process_commission c6_db 1 100000).2 2).map
        (fun v => v.referral_total_earned) = some 25007 := by
  have h := C6_commission_exact_floor c6_db 1 100000
    { mkUser 1 with referrer_id := some 2 }
    { mkUser 2 with referral_balance := 5, referral_total_earned := 7 } 2
    rfl rfl rfl (by decide) (by decide) (by decide)
  exact ⟨h.1.trans (by decide), h.2.2.1.trans (by norm_num [commission_of_floor]),
         h.2.2.2.trans (by norm_num [commission_of_floor])⟩

/-! ## Claim C2, amended -/

theorem start_generation_duplicate (db : Db) (req : GenerationRequest) (key : String)
    (u : User)
    (hu : findUser db req.user_id = some u)
    (hb : u.is_banned = false)
    (ha : active_count db u.id < MAX_ACTIVE_GENERATIONS)
    (hr : recent_count db u.id < RATE_LIMIT_PER_MINUTE)
    (hkey : (key == "") = false)
    (hk : (check_idempotency db u.id (some key)).isSome = true) :
    start_generation db req (some key) = Except.error GenError.duplicateRequest := by
  unfold start_generation
  rw [hu]
  dsimp only
  rw [if_neg (by simp [hb]), if_neg (not_le.mpr ha), if_neg (not_le.mpr hr),
      if_pos (by simp [truthy_key, hkey, hk])]

/-- C2 (amended): calling `start_generation` twice with the same
`(account, idempotencyKey)`, for a non-empty key — an empty-string key is
falsy in Python and both `if idempotency_key:` and `check_idempotency`
treat it as no key, so no deduplication happens for it — charges exactly
once and creates exactly one job; the second call (the limit checks,
which run first, still passing) fails with `DuplicateRequestError`
without charging or creating anything, but it does not return the
existing job or its id — the error carries no job. -/
theorem C2_same_key_charges_once (db : Db) (req : GenerationRequest) (key : String)
    (u : User)
    (hu : findUser db req.user_id = some u)
    (hb : u.is_banned = false)
    (ha : active_count db u.id + 1 < MAX_ACTIVE_GENERATIONS)
    (hr : recent_count db u.id + 1 < RATE_LIMIT_PER_MINUTE)
    (hkey : key ≠ "")
    (hk : check_idempotency db u.id (some key) = none)
    (hc : modelPrice req.model_id ≤ u.credits) :
    ∃ res db1,
      start_generation db req (some key) = Except.ok (res, db1) ∧
      res.id = db.next_generation_id ∧
      userCredits db1 req.user_id = some (u.credits - modelPrice req.model_id) ∧
      txSum db1.transactions u.id = txSum db.transactions u.id - modelPrice req.model_id ∧
      db1.generations.length = db.generations.length + 1 ∧
      start_generation db1 req (some key) = Except.error GenError.duplicateRequest := by
  have hid : u.id = req.user_id := by simpa using List.find?_some hu
  have hu2 : findUser db u.id = some u := by rw [hid]; exact hu
  have hkeyb : (key == "") = false := by simp [hkey]
  have htr : truthy_key (some key) = true := by simp [truthy_key, hkeyb]
  obtain ⟨res, db1, h1, husers, hgens, htx, hnow, hres⟩ :
      ∃ res db1,
        start_generation db req (some key) = Except.ok (res, db1) ∧
        db1.users = db.users.map (fun v =>
          if v.id == u.id then apply_charge db.now (modelPrice req.model_id) v else v) ∧
        db1.generations = db.generations ++
          [new_generation_row db req (some key) (modelPrice req.model_id) u.id] ∧
        db1.transactions = db.transactions ++
          [charge_tx u.id (modelPrice req.model_id) db.next_generation_id] ∧
        db1.now = db.now ∧
        res = { id := db.next_generation_id
                credits_charged := modelPrice req.model_id
                new_balance := u.credits - modelPrice req.model_id } :=
    ⟨_, _, start_generation_success db req (some key) u hu hb (by omega) (by omega)
      (by simp [hk]) hc, rfl, rfl, rfl, rfl, rfl⟩
  have hfind1 : findUser db1 req.user_id =
      some (apply_charge db.now (modelPrice req.model_id) u) := by
    unfold findUser
    rw [husers, ← hid]
    exact (find?_map_update (fun v => v.id == u.id)
      (apply_charge db.now (modelPrice req.model_id)) (fun v => rfl) db.users).trans
      (by rw [show db.users.find? (fun v => v.id == u.id) = some u from hu2])
  have hcount : active_count db1 u.id = active_count db u.id + 1 := by
    unfold active_count
    rw [hgens, List.filter_append, List.length_append]
    simp [new_generation_row]
  have hrecent : recent_count db1 u.id = recent_count db u.id + 1 := by
    unfold recent_count
    rw [hgens, hnow, List.filter_append, List.length_append]
    simp [new_generation_row]
  have hfind : db.generations.find? (fun g =>
      g.user_id == u.id && g.idempotency_key == some key) = none := by
    have h := hk
    unfold check_idempotency at h
    rw [if_neg (by simp [htr])] at h
    exact h
  have hdup : check_idempotency db1 u.id (some key) =
      some (new_generation_row db req (some key) (modelPrice req.model_id) u.id) := by
    unfold check_idempotency
    rw [if_neg (by simp [htr]), hgens, List.find?_append, hfind]
    simp [new_generation_row]
  refine ⟨res, db1, h1, by rw [hres], ?_, ?_, ?_, ?_⟩
  · unfold userCredits
    rw [hfind1]
    rfl
  · rw [htx, txSum_append]
    simp [charge_tx, sub_eq_add_neg]
  · rw [hgens]
    simp
  · exact start_generation_duplicate db1 req key
      (apply_charge db.now (modelPrice req.model_id) u) hfind1 hb
      (by show active_count db1 u.id < _; omega)
      (by show recent_count db1 u.id < _; omega)
      hkeyb
      (by show (check_idempotency db1 u.id (some key)).isSome = true; rw [hdup]; rfl)

/-- Witness for C2 (amended): user 1 with 100 credits requesting the
1-credit `nano-banana` model twice under key `KEY`. -/
theorem C2_same_key_charges_once_witness :
    (∃ res db1,
      start_generation c2_db c2_req (some "KEY") = Except.ok (res, db1) ∧
      res.id = c2_db.next_generation_id ∧
      userCredits db1 c2_req.user_id = some (99 : Int) ∧
      txSum db1.transactions 1 = txSum c2_db.transactions 1 - 1 ∧
      db1.generations.length = c2_db.generations.length + 1 ∧
      start_generation db1 c2_req (some "KEY") = Except.error GenError.duplicateRequest) :=
  C2_same_key_charges_once c2_db c2_req "KEY" { mkUser 1 with credits := 100 }
    rfl rfl (by decide) (by decide) (by decide) rfl (by decide)

/-! ## Claim C3, amended -/

/-- C3 (amended): the ledger tracks only the generation flow.  A
successful `start_generation` debits `price` and appends the matching
`-price` GENERATION entry, and `_handle_generation_failure` credits the
refund and appends the matching `+price` REFUND entry — both preserve
`credits − Σ entries`.  But `confirm_topup` adds the purchased credits to
the balance while writing no ledger `Transaction` at all (withdrawals and
commissions likewise mutate referral balances without entries), so the sum
of an account's ledger entries does not in general equal its balance. -/
theorem C3_ledger_tracks_only_generation_flow :
    (∀ db (req : GenerationRequest) key u,
       findUser db req.user_id = some u →
       u.is_banned = false →
       active_count db u.id < MAX_ACTIVE_GENERATIONS →
       recent_count db u.id < RATE_LIMIT_PER_MINUTE →
       (truthy_key key && (check_idempotency db u.id key).isSome) = false →
       modelPrice req.model_id ≤ u.credits →
       ∃ res db1,
         start_generation db req key = Except.ok (res, db1) ∧
         userCredits db1 req.user_id = some (u.credits - modelPrice req.model_id) ∧
         txSum db1.transactions u.id = txSum db.transactions u.id - modelPrice req.model_id) ∧
    (∀ db gid msg gen u,
       findGeneration db gid = some gen →
       findUser db gen.user_id = some u →
       userCredits (handle_generation_failure db gid msg) gen.user_id =
         some (u.credits + gen.credits_charged) ∧
       txSum (handle_generation_failure db gid msg).transactions gen.user_id =
         txSum db.transactions gen.user_id + gen.credits_charged) ∧
    (∀ db pid aid (p : Payment) u,
       findPayment db pid = some p →
       p.status = PaymentStatus.pending →
       findUser db p.user_id = some u →
       u.referrer_id = none →
       ∃ res db1,
         confirm_topup db pid aid = Except.ok (res, db1) ∧
         db1.transactions = db.transactions ∧
         userCredits db1 p.user_id = some (u.credits + p.credits)) := by
  refine ⟨?_, ?_, ?_⟩
  · intro db req key u hu hb ha hr hk hc
    have hid : u.id = req.user_id := by simpa using List.find?_some hu
    have hu2 : db.users.find? (fun v => v.id == u.id) = some u := by
      rw [hid]; exact hu
    obtain ⟨res, db1, h1, husers, htx⟩ :
        ∃ res db1,
          start_generation db req key = Except.ok (res, db1) ∧
          db1.users = db.users.map (fun v =>
            if v.id == u.id then apply_charge db.now (modelPrice req.model_id) v else v) ∧
          db1.transactions = db.transactions ++
            [charge_tx u.id (modelPrice req.model_id) db.next_generation_id] :=
      ⟨_, _, start_generation_success db req key u hu hb ha hr hk hc, rfl, rfl⟩
    refine ⟨res, db1, h1, ?_, ?_⟩
    · unfold userCredits findUser
      rw [husers, ← hid,
          find?_map_update (fun v => v.id == u.id)
            (apply_charge db.now (modelPrice req.model_id)) (fun v => rfl) db.users, hu2]
      rfl
    · rw [htx, txSum_append]
      simp [charge_tx, sub_eq_add_neg]
  · intro db gid msg gen u hg hu
    rw [handle_generation_failure_spec db gid msg gen u hg hu]
    constructor
    · unfold userCredits findUser
      dsimp only
      rw [find?_map_update (fun v => v.id == gen.user_id)
            (apply_refund gen.credits_charged) (fun v => rfl) db.users,
          show db.users.find? (fun v => v.id == gen.user_id) = some u from hu]
      rfl
    · dsimp only
      rw [txSum_append]
      simp
  · intro db pid aid p u hp hps hu href
    have hid : u.id = p.user_id := by simpa using List.find?_some hu
    unfold confirm_topup
    rw [hp]
    dsimp only
    rw [if_neg (by simp [hps]), hu]
    dsimp only
    rw [if_neg (by simp [href])]
    dsimp only
    refine ⟨_, _, rfl, rfl, ?_⟩
    have hstep : findUser
        (updateUser (updatePayment db pid (fun q =>
          { q with status := .approved, admin_id := some aid, processed_at := some db.now }))
          u.id (apply_topup_credit p.credits p.amount_uzs)) p.user_id =
        some (apply_topup_credit p.credits p.amount_uzs u) := by
      rw [← hid,
          findUser_updateUser_self _ u.id (apply_topup_credit p.credits p.amount_uzs)
            (fun v => rfl),
          findUser_updatePayment,
          show findUser db u.id = some u from by rw [hid]; exact hu]
      rfl
    unfold userCredits
    rw [hstep]
    rfl

/-- Witness for C3 (amended): the generation charge of the 1-credit model
for user 1, the 15-credit failure refund of job 1, and the 100-credit
top-up approval that leaves the ledger untouched. -/
theorem C3_ledger_tracks_only_generation_flow_witness :
    (∃ res db1,
      start_generation c2_db c2_req (some "K2") = Except.ok (res, db1) ∧
      userCredits db1 1 = some (99 : Int) ∧
      txSum db1.transactions 1 = txSum c2_db.transactions 1 - 1) ∧
    (userCredits (handle_generation_failure c1_db 1 "provider error") 1 = some (100 : Int) ∧
     txSum (handle_generation_failure c1_db 1 "provider error").transactions 1 =
       txSum c1_db.transactions 1 + 15) ∧
    (∃ res db1,
      confirm_topup c3_db 1 99 = Except.ok (res, db1) ∧
      db1.transactions = c3_db.transactions ∧
      userCredits db1 1 = some (100 : Int)) :=
  ⟨C3_ledger_tracks_only_generation_flow.1 c2_db c2_req (some "K2")
      { mkUser 1 with credits := 100 } rfl rfl (by decide) (by decide) (by decide) (by decide),
   C3_ledger_tracks_only_generation_flow.2.1 c1_db 1 "provider error"
      (pendingVideoGen 1 1) { mkUser 1 with credits := 85 } rfl rfl,
   C3_ledger_tracks_only_generation_flow.2.2 c3_db 1 99
      { id := 1, user_id := 1, credits := 100, amount_uzs := 50000
        status := .pending, admin_id := none, referrer_id := none
        referral_commission := 0, idempotency_key := none, processed_at := none }
      { mkUser 1 with credits := 0 } rfl rfl rfl rfl⟩

/-! ## Claim C4 -/

theorem updateGeneration_users (db : Db) (gid : Nat) (f : Generation → Generation) :
    (updateGeneration db gid f).users = db.users := rfl

theorem updateGeneration_transactions (db : Db) (gid : Nat) (f : Generation → Generation) :
    (updateGeneration db gid f).transactions = db.transactions := rfl

theorem updateGeneration_now (db : Db) (gid : Nat) (f : Generation → Generation) :
    (updateGeneration db gid f).now = db.now := rfl

theorem updateGeneration_generations (db : Db) (gid : Nat) (f : Generation → Generation) :
    (updateGeneration db gid f).generations =
      db.generations.map (fun g => if g.id == gid then f g else g) := rfl

theorem updateUser_transactions (db : Db) (uid : Nat) (f : User → User) :
    (updateUser db uid f).transactions = db.transactions := rfl

theorem updateUser_generations (db : Db) (uid : Nat) (f : User → User) :
    (updateUser db uid f).generations = db.generations := rfl

theorem updateUser_withdrawals (db : Db) (uid : Nat) (f : User → User) :
    (updateUser db uid f).withdrawals = db.withdrawals := rfl

theorem updateUser_now (db : Db) (uid : Nat) (f : User → User) :
    (updateUser db uid f).now = db.now := rfl

theorem updateUser_users (db : Db) (uid : Nat) (f : User → User) :
    (updateUser db uid f).users =
      db.users.map (fun u => if u.id == uid then f u else u) := rfl

/-- C4: a video job whose provider never reports a terminal status is
polled at the fixed 10-second interval exactly `600 / 10 = 60` times — the
accumulated waiting stops exactly at the 600-second deadline — after which
`wait_for_video` raises `TimeoutError` and `process_generation` force-fails
the job: status FAILED, the full `credits_charged` back on the balance,
and exactly one more REFUND entry so the job's ledger nets to zero. -/
theorem C4_video_timeout_always_refunds (db : Db) (gid : Nat) (prov : Provider)
    (gen : Generation) (u : User) (tid : String)
    (hg : findGeneration db gid = some gen)
    (hst : gen.status = GenerationStatus.pending)
    (hty : gen.generation_type = "video")
    (hsub : prov.videoSubmit = Except.ok (some tid))
    (hpoll : ∀ k, isTerminalReply (prov.poll k) = false)
    (hu : findUser db gen.user_id = some u) :
    wait_for_video prov.poll GENERATION_TIMEOUT 10 = (Except.error WaitError.timeout, 60) ∧
    generationStatusOf (process_generation db gid prov) gid = some GenerationStatus.failed ∧
    userCredits (process_generation db gid prov) gen.user_id =
      some (u.credits + gen.credits_charged) ∧
    refundCount (process_generation db gid prov).transactions gid =
      refundCount db.transactions gid + 1 ∧
    jobTxSum (process_generation db gid prov).transactions gid =
      jobTxSum db.transactions gid + gen.credits_charged := by
  have hgid : gen.id = gid := by simpa using List.find?_some hg
  have hwait : wait_for_video prov.poll GENERATION_TIMEOUT 10 =
      (Except.error WaitError.timeout, 60) := by
    unfold wait_for_video
    rw [wait_for_video_loop_timeout prov.poll hpoll]
    norm_num [GENERATION_TIMEOUT]
  have hproc : process_generation db gid prov =
      handle_generation_failure
        (updateGeneration (updateGeneration db gid (set_processing db.now)) gid (set_task tid))
        gid "Generation timeout" := by
    unfold process_generation
    rw [hg]
    dsimp only
    rw [if_neg (by simp [hst]), if_neg (by simp [hty]), hsub]
    dsimp only
    rw [hwait]
  have hg2 : findGeneration
      (updateGeneration (updateGeneration db gid (set_processing db.now)) gid (set_task tid))
      gid = some (set_task tid (set_processing db.now gen)) := by
    rw [findGeneration_updateGeneration_self _ gid (set_task tid) (fun g => rfl),
        findGeneration_updateGeneration_self db gid (set_processing db.now) (fun g => rfl),
        hg]
    rfl
  have hu2 : findUser
      (updateGeneration (updateGeneration db gid (set_processing db.now)) gid (set_task tid))
      (set_task tid (set_processing db.now gen)).user_id = some u := by
    rw [findUser_updateGeneration, findUser_updateGeneration]
    exact hu
  have hspec := handle_generation_failure_spec _ gid "Generation timeout" _ u hg2 hu2
  rw [hproc, hspec]
  have huid : (set_task tid (set_processing db.now gen)).user_id = gen.user_id := rfl
  have hid2 : (set_task tid (set_processing db.now gen)).id = gen.id := rfl
  refine ⟨hwait, ?_, ?_, ?_, ?_⟩
  · unfold generationStatusOf findGeneration
    dsimp only
    simp only [updateGeneration_generations, updateGeneration_now]
    rw [find?_map_update (fun g => g.id == gid)
          (set_failed "Generation timeout" db.now) (fun g => rfl),
        find?_map_update (fun g => g.id == gid) (set_task tid) (fun g => rfl),
        find?_map_update (fun g => g.id == gid) (set_processing db.now) (fun g => rfl),
        show db.generations.find? (fun g => g.id == gid) = some gen from hg]
    rfl
  · unfold userCredits findUser
    dsimp only
    simp only [updateGeneration_users, updateGeneration_now]
    rw [huid,
        find?_map_update (fun v => v.id == gen.user_id)
          (apply_refund (set_task tid (set_processing db.now gen)).credits_charged)
          (fun v => rfl),
        show db.users.find? (fun v => v.id == gen.user_id) = some u from hu]
    rfl
  · dsimp only
    simp only [updateGeneration_transactions]
    rw [refundCount_append]
    simp [set_task, set_processing, hgid]
  · dsimp only
    simp only [updateGeneration_transactions]
    rw [jobTxSum_append]
    simp [set_task, set_processing, hgid]

/-- Witness for C4: pending video job 1 (15 credits), a provider stuck on
`generating` forever. -/
theorem C4_video_timeout_always_refunds_witness :
    wait_for_video c4_prov.poll GENERATION_TIMEOUT 10 =
      (Except.error WaitError.timeout, 60) ∧
    generationStatusOf (process_generation c4_db 1 c4_prov) 1 =
      some GenerationStatus.failed ∧
    userCredits (process_generation c4_db 1 c4_prov) 1 = some (100 : Int) ∧
    refundCount (process_generation c4_db 1 c4_prov).transactions 1 = 1 ∧
    jobTxSum (process_generation c4_db 1 c4_prov).transactions 1 = 0 := by
  have h := C4_video_timeout_always_refunds c4_db 1 c4_prov (pendingVideoGen 1 1)
    { mkUser 1 with credits := 85 } "task-1" rfl rfl rfl rfl (fun k => rfl) rfl
  refine ⟨h.1, h.2.1, h.2.2.1.trans (by decide), h.2.2.2.1.trans (by decide),
          h.2.2.2.2.trans (by decide)⟩

/-! ## Claim C5 -/

theorem apply_freeze_id (A : Int) (cc : String) (ct : CardType) (v : User) :
    (apply_freeze A cc ct v).id = v.id := by
  unfold apply_freeze
  dsimp only
  split <;> rfl

theorem apply_freeze_balance (A : Int) (cc : String) (ct : CardType) (v : User) :
    (apply_freeze A cc ct v).referral_balance = v.referral_balance - A := by
  unfold apply_freeze
  dsimp only
  split <;> rfl

theorem apply_freeze_withdrawn (A : Int) (cc : String) (ct : CardType) (v : User) :
    (apply_freeze A cc ct v).referral_withdrawn = v.referral_withdrawn := by
  unfold apply_freeze
  dsimp only
  split <;> rfl

/-- C5: with a sufficient referral balance `B`, an amount `A` at or above
the configured minimum, an accepted card and no other open withdrawal,
creation debits `referral_balance` to `B − A` and freezes the request;
admin rejection restores the balance to `B` and is terminal (any further
decision on the same withdrawal errors); admin approval keeps the balance
at `B − A` and adds `A` to the lifetime `referral_withdrawn` total. -/
theorem C5_withdrawal_freeze_reject_approve (db : Db) (uid : Nat) (A : Int) (card : String)
    (u : User) (ct : CardType) (aid aid2 : Nat)
    (hu : findUser db uid = some u)
    (hmin : min_withdrawal_uzs ≤ A)
    (hbal : A ≤ u.referral_balance)
    (hlen : (clean_card card).length = 16)
    (hct : card_type_of (clean_card card) = some ct)
    (hpend : pending_withdrawal_of db uid = none)
    (hfresh : db.withdrawals.find? (fun w => w.id == db.next_withdrawal_id) = none) :
    ∃ res db1,
      create_withdrawal_request db uid A card = Except.ok (res, db1) ∧
      userReferralBalance db1 uid = some (u.referral_balance - A) ∧
      (findWithdrawal db1 db.next_withdrawal_id).map (fun w => w.status) =
        some WithdrawalStatus.frozen ∧
      (∃ res2 db2,
        reject_withdrawal db1 db.next_withdrawal_id aid = Except.ok (res2, db2) ∧
        userReferralBalance db2 uid = some u.referral_balance ∧
        (findWithdrawal db2 db.next_withdrawal_id).map (fun w => w.status) =
          some WithdrawalStatus.rejected ∧
        (reject_withdrawal db2 db.next_withdrawal_id aid2).isOk = false ∧
        (confirm_withdrawal db2 db.next_withdrawal_id aid2).isOk = false) ∧
      (∃ res3 db3,
        confirm_withdrawal db1 db.next_withdrawal_id aid = Except.ok (res3, db3) ∧
        userReferralBalance db3 uid = some (u.referral_balance - A) ∧
        userReferralWithdrawn db3 uid = some (u.referral_withdrawn + A) ∧
        (findWithdrawal db3 db.next_withdrawal_id).map (fun w => w.status) =
          some WithdrawalStatus.approved) := by
  obtain ⟨res0, DB1, hcreate, husers1, hw1, hnow1⟩ :
      ∃ res0 DB1,
        create_withdrawal_request db uid A card = Except.ok (res0, DB1) ∧
        DB1.users = db.users.map (fun v =>
          if v.id == uid then apply_freeze A (clean_card card) ct v else v) ∧
        DB1.withdrawals = db.withdrawals ++
          [{ id := db.next_withdrawal_id, user_id := uid, amount_uzs := A
             card_number := clean_card card, card_type := ct
             status := .frozen, admin_id := none
             idempotency_key := none, processed_at := none }] ∧
        DB1.now = db.now := by
    refine ⟨{ withdrawal_id := db.next_withdrawal_id, user_id := uid
              amount_uzs := A, card_type := ct },
            { db with
                users := db.users.map (fun v =>
                  if v.id == uid then apply_freeze A (clean_card card) ct v else v)
                withdrawals := db.withdrawals ++
                  [{ id := db.next_withdrawal_id, user_id := uid, amount_uzs := A
                     card_number := clean_card card, card_type := ct
                     status := .frozen, admin_id := none
                     idempotency_key := none, processed_at := none }]
                next_withdrawal_id := db.next_withdrawal_id + 1 },
            ?_, rfl, rfl, rfl⟩
    unfold create_withdrawal_request
    rw [hu]
    dsimp only
    rw [if_neg (not_lt.mpr hmin), if_neg (not_lt.mpr hbal), if_neg (by simp [hlen]), hct]
    dsimp only
    rw [if_neg (by simp [hpend])]
    rfl
  have hfind_u1 : findUser DB1 uid = some (apply_freeze A (clean_card card) ct u) := by
    unfold findUser
    rw [husers1,
        find?_map_update (fun v => v.id == uid) (apply_freeze A (clean_card card) ct)
          (fun v => by simp [apply_freeze_id]) db.users,
        show db.users.find? (fun v => v.id == uid) = some u from hu]
    rfl
  have hfind_w1 : findWithdrawal DB1 db.next_withdrawal_id =
      some { id := db.next_withdrawal_id, user_id := uid, amount_uzs := A
             card_number := clean_card card, card_type := ct
             status := .frozen, admin_id := none
             idempotency_key := none, processed_at := none } := by
    unfold findWithdrawal
    rw [hw1, List.find?_append, hfresh]
    simp
  refine ⟨res0, DB1, hcreate, ?_, ?_, ?_, ?_⟩
  · unfold userReferralBalance
    rw [hfind_u1]
    simp [apply_freeze_balance]
  · rw [hfind_w1]
    rfl
  · -- rejection path
    have hrej : reject_withdrawal DB1 db.next_withdrawal_id aid = Except.ok
        ((uid, A),
         updateWithdrawal (updateUser DB1 uid (apply_unfreeze A)) db.next_withdrawal_id
           (set_withdrawal_status .rejected aid DB1.now)) := by
      unfold reject_withdrawal
      rw [hfind_w1]
      dsimp only
      rw [if_neg (by simp), hfind_u1]
      dsimp only
      rw [show (apply_freeze A (clean_card card) ct u).id = u.id from apply_freeze_id _ _ _ _,
          show u.id = uid from by simpa using List.find?_some hu]
    have hfu2 : findUser (updateWithdrawal (updateUser DB1 uid (apply_unfreeze A))
        db.next_withdrawal_id (set_withdrawal_status .rejected aid DB1.now)) uid =
        some (apply_unfreeze A (apply_freeze A (clean_card card) ct u)) := by
      rw [findUser_updateWithdrawal,
          findUser_updateUser_self DB1 uid (apply_unfreeze A) (fun v => rfl), hfind_u1]
      rfl
    have hfw2 : findWithdrawal (updateWithdrawal (updateUser DB1 uid (apply_unfreeze A))
        db.next_withdrawal_id (set_withdrawal_status .rejected aid DB1.now))
        db.next_withdrawal_id =
        some (set_withdrawal_status .rejected aid DB1.now
          { id := db.next_withdrawal_id, user_id := uid, amount_uzs := A
            card_number := clean_card card, card_type := ct
            status := .frozen, admin_id := none
            idempotency_key := none, processed_at := none }) := by
      rw [findWithdrawal_updateWithdrawal_self _ db.next_withdrawal_id
            (set_withdrawal_status .rejected aid DB1.now) (fun w => rfl),
          findWithdrawal_updateUser, hfind_w1]
      rfl
    refine ⟨_, _, hrej, ?_, ?_, ?_, ?_⟩
    · unfold userReferralBalance
      rw [hfu2]
      simp [apply_unfreeze, apply_freeze_balance]
    · rw [hfw2]
      rfl
    · rw [show reject_withdrawal (updateWithdrawal (updateUser DB1 uid (apply_unfreeze A))
            db.next_withdrawal_id (set_withdrawal_status .rejected aid DB1.now))
            db.next_withdrawal_id aid2 = Except.error "Withdrawal already processed" from by
          unfold reject_withdrawal
          rw [hfw2]
          dsimp only
          rw [if_pos (by simp [set_withdrawal_status])]]
      rfl
    · rw [show confirm_withdrawal (updateWithdrawal (updateUser DB1 uid (apply_unfreeze A))
            db.next_withdrawal_id (set_withdrawal_status .rejected aid DB1.now))
            db.next_withdrawal_id aid2 = Except.error "Withdrawal already processed" from by
          unfold confirm_withdrawal
          rw [hfw2]
          dsimp only
          rw [if_pos (by simp [set_withdrawal_status])]]
      rfl
  · -- approval path
    have hconf : confirm_withdrawal DB1 db.next_withdrawal_id aid = Except.ok
        ((uid, A),
         updateUser (updateWithdrawal DB1 db.next_withdrawal_id
           (set_withdrawal_status .approved aid DB1.now)) uid (apply_withdrawn A)) := by
      unfold confirm_withdrawal
      rw [hfind_w1]
      dsimp only
      rw [if_neg (by simp), hfind_u1]
      dsimp only
      rw [show (apply_freeze A (clean_card card) ct u).id = u.id from apply_freeze_id _ _ _ _,
          show u.id = uid from by simpa using List.find?_some hu]
    have hfu3 : findUser (updateUser (updateWithdrawal DB1 db.next_withdrawal_id
        (set_withdrawal_status .approved aid DB1.now)) uid (apply_withdrawn A)) uid =
        some (apply_withdrawn A (apply_freeze A (clean_card card) ct u)) := by
      rw [findUser_updateUser_self _ uid (apply_withdrawn A) (fun v => rfl),
          findUser_updateWithdrawal, hfind_u1]
      rfl
    have hfw3 : findWithdrawal (updateUser (updateWithdrawal DB1 db.next_withdrawal_id
        (set_withdrawal_status .approved aid DB1.now)) uid (apply_withdrawn A))
        db.next_withdrawal_id =
        some (set_withdrawal_status .approved aid DB1.now
          { id := db.next_withdrawal_id, user_id := uid, amount_uzs := A
            card_number := clean_card card, card_type := ct
            status := .frozen, admin_id := none
            idempotency_key := none, processed_at := none }) := by
      rw [findWithdrawal_updateUser,
          findWithdrawal_updateWithdrawal_self DB1 db.next_withdrawal_id
            (set_withdrawal_status .approved aid DB1.now) (fun w => rfl), hfind_w1]
      rfl
    refine ⟨_, _, hconf, ?_, ?_, ?_⟩
    · unfold userReferralBalance
      rw [hfu3]
      simp [apply_withdrawn, apply_freeze_balance]
    · unfold userReferralWithdrawn
      rw [hfu3]
      simp [apply_withdrawn, apply_freeze_withdrawn]
    · rw [hfw3]
      rfl

/-- Witness for C5: a 1,000,000-UZS withdrawal by user 1 holding exactly
1,000,000 of referral balance, on an UZCARD number. -/
theorem C5_withdrawal_freeze_reject_approve_witness :
    ∃ res db1,
      create_withdrawal_request c5_db 1 1000000 "8600 1234 5678 9012" = Except.ok (res, db1) ∧
      userReferralBalance db1 1 = some (0 : Int) ∧
      (findWithdrawal db1 1).map (fun w => w.status) = some WithdrawalStatus.frozen ∧
      (∃ res2 db2,
        reject_withdrawal db1 1 9 = Except.ok (res2, db2) ∧
        userReferralBalance db2 1 = some (1000000 : Int) ∧
        (findWithdrawal db2 1).map (fun w => w.status) = some WithdrawalStatus.rejected ∧
        (reject_withdrawal db2 1 8).isOk = false ∧
        (confirm_withdrawal db2 1 8).isOk = false) ∧
      (∃ res3 db3,
        confirm_withdrawal db1 1 9 = Except.ok (res3, db3) ∧
        userReferralBalance db3 1 = some (0 : Int) ∧
        userReferralWithdrawn db3 1 = some (1000000 : Int) ∧
        (findWithdrawal db3 1).map (fun w => w.status) = some WithdrawalStatus.approved) :=
  C5_withdrawal_freeze_reject_approve c5_db 1 1000000 "8600 1234 5678 9012"
    { mkUser 1 with referral_balance := 1000000 } CardType.uzcard 9 8
    rfl (by decide) (by decide) (by decide) (by decide) rfl rfl

end NanoGen
